import Mathlib

/-!
Verification of the Pi5 photo-viewer slideshow engine.

This file gives a shallow embedding of the transition/motion state machine of
`slideshow/image_viewer.py` and of the sequencing logic of
`slideshow/slideshow_manager.py`, and proves properties of the embedded
functions.

Modelling conventions:

* A `QPixmap` is modelled by its nullness and its pixel dimensions
  (`Pixmap`).  Decoding an image path is external I/O, so `set_image`
  receives the decoded pixmap, together with the externally extracted
  folder/date metadata strings, as arguments.
* Python floats are modelled by exact rationals.
* Calls to `random.choice` / `random.uniform` are modelled by explicit draw
  parameters (`Draws`, `MotionDraws`): a uniform draw becomes a rational
  parameter constrained in theorems to the documented interval, and
  `random.choice` over a list becomes an arbitrary index taken modulo the
  list length.  The cosine and sine of a random angle are passed in as
  rationals, bounded by 1 in absolute value where a theorem needs it.
* Purely view-level effects of the source - scene rectangles, the view
  transform written by `fitInView` and `apply_motion_progress`, overlay
  label geometry, painting - are outside the modelled state.  The state
  keeps every field the claims quantify over: the two pixmap layers, the
  mosaic tile list, the transition bookkeeping, the motion bookkeeping, and
  the started/stopped status of the timers and animations.
-/

/-- The list of supported transition identifiers
(`SUPPORTED_TRANSITIONS`, image_viewer.py lines 41-49). -/
def SUPPORTED_TRANSITIONS : List String :=
  ["crossfade", "slide-horizontal", "slide-vertical", "zoom",
   "carousel", "mosaic", "pixelate"]

/-- A `QPixmap`: either the null pixmap (`QPixmap()`) or an image with pixel
dimensions.  Pixel content is not modelled, only nullness and size. -/
inductive Pixmap where
  | null : Pixmap
  | img : ℕ → ℕ → Pixmap
deriving DecidableEq

/-- `QPixmap.isNull()`. -/
def Pixmap.isNull : Pixmap → Bool
  | .null => true
  | .img _ _ => false

/-- `QPixmap.width()` (0 for the null pixmap, as in Qt). -/
def Pixmap.width : Pixmap → ℕ
  | .null => 0
  | .img w _ => w

/-- `QPixmap.height()` (0 for the null pixmap, as in Qt). -/
def Pixmap.height : Pixmap → ℕ
  | .null => 0
  | .img _ h => h

/-- A `QGraphicsPixmapItem` layer: pixmap, position, scale, rotation,
opacity, visibility, z-value and transform-origin point. -/
structure Layer where
  pixmap : Pixmap
  posX : ℚ
  posY : ℚ
  scale : ℚ
  rotation : ℚ
  opacity : ℚ
  visible : Bool
  zValue : ℤ
  originX : ℚ
  originY : ℚ
deriving DecidableEq

/-- One mosaic tile: the entry `(tile_item, origin, offset)` of
`transition_tiles` (image_viewer.py line 588), with the tile item's mutable
position and opacity and its pixmap dimensions. -/
structure Tile where
  tileW : ℕ
  tileH : ℕ
  originX : ℚ
  originY : ℚ
  offsetX : ℚ
  offsetY : ℚ
  posX : ℚ
  posY : ℚ
  opacity : ℚ
  zValue : ℤ
deriving DecidableEq

/-- The per-kind `transition_data` dictionary, as a tagged union.  The empty
dictionary is `TransitionData.empty`; slide transitions store direction and
distance, zoom stores start and end scale, carousel stores a width. -/
inductive TransitionData where
  | empty : TransitionData
  | slide : ℤ → ℕ → TransitionData
  | zoomData : ℚ → ℚ → TransitionData
  | carouselData : ℕ → TransitionData
deriving DecidableEq

/-- `transition_data.get("direction", 1)`. -/
def TransitionData.getDirection : TransitionData → ℤ
  | .slide d _ => d
  | _ => 1

/-- `transition_data.get("distance", 0)`. -/
def TransitionData.getDistance : TransitionData → ℕ
  | .slide _ dist => dist
  | _ => 0

/-- `transition_data.get("start_scale", 0.7)`. -/
def TransitionData.getStartScale : TransitionData → ℚ
  | .zoomData a _ => a
  | _ => 7/10

/-- `transition_data.get("end_scale", 1.0)`. -/
def TransitionData.getEndScale : TransitionData → ℚ
  | .zoomData _ b => b
  | _ => 1

/-- `transition_data.get("width", 0)`. -/
def TransitionData.getWidth : TransitionData → ℕ
  | .carouselData w => w
  | _ => 0

/-- The mutable state of an `ImageViewer` that the verified operations read
and write.  Timer/animation objects are modelled by their running status. -/
structure ViewerState where
  motionEnabled : Bool
  motionTimerActive : Bool
  motionAnimActive : Bool
  transitionAnimActive : Bool
  transitionDurationMs : ℤ
  motionDuration : ℤ
  currentPixmap : Pixmap
  startScale : ℚ
  endScale : ℚ
  totalDx : ℚ
  totalDy : ℚ
  motionPrepared : Bool
  transitionActive : Bool
  transitionType : Option String
  transitionData : TransitionData
  transitionTiles : List Tile
  incomingPixmap : Pixmap
  availableTransitions : List String
  pixmapItem : Layer
  nextPixmapItem : Layer
  photoFolderText : String
  photoDateText : String
deriving DecidableEq

/-- Draws consumed by `_prepare_motion_parameters`: the zoom-direction coin
flip, the `random.uniform(1.08, 1.2)` scale draw, the
`random.uniform(0.02, 0.08)` pan-magnitude draw, and the cosine/sine of the
`random.uniform(0, 2*pi)` pan angle. -/
structure MotionDraws where
  zoomIn : Bool
  scaleDraw : ℚ
  panAmt : ℚ
  cosA : ℚ
  sinA : ℚ

/-- All random draws a single `set_image` call may consume: the
`random.choice` index for `_choose_transition`, the slide-direction coin,
the zoom-direction coin of the zoom transition, the per-tile mosaic draws
(cosine and sine of the scatter angle and the scatter distance, indexed by
column and row), and the motion draws. -/
structure Draws where
  choiceIdx : ℕ
  dirPos : Bool
  zoomIn : Bool
  tileCos : ℕ → ℕ → ℚ
  tileSin : ℕ → ℕ → ℚ
  tileDist : ℕ → ℕ → ℚ
  motion : MotionDraws

/-- Python `int()` truncation toward zero, for rationals. -/
def pyTrunc (q : ℚ) : ℤ := if 0 ≤ q then ⌊q⌋ else ⌈q⌉

/-- ASCII lowercase of one character, as Python `str.lower` acts on the
ASCII transition identifiers. -/
def charLower (c : Char) : Char :=
  if 'A' ≤ c ∧ c ≤ 'Z' then Char.ofNat (c.toNat + 32) else c

/-- Python `str.lower()` on the strings this module handles (ASCII). -/
def pyLower (s : String) : String := ⟨s.data.map charLower⟩

/-- Whitespace test used by Python `str.strip()`. -/
def isSpaceChar (c : Char) : Bool :=
  c = ' ' || c = '\t' || c = '\n' || c = '\r' ||
    c = Char.ofNat 11 || c = Char.ofNat 12

/-- Python `str.strip()`: drop leading and trailing whitespace. -/
def pyStrip (s : String) : String :=
  ⟨((s.data.dropWhile isSpaceChar).reverse.dropWhile isSpaceChar).reverse⟩

/-- `_cleanup_transition_tiles` (image_viewer.py lines 552-555): remove all
tile items from the scene and clear the list. -/
def cleanup_transition_tiles (s : ViewerState) : ViewerState :=
  { s with transitionTiles := [] }

/-- `_reset_transition_items` (image_viewer.py lines 529-550). -/
def reset_transition_items (s : ViewerState) : ViewerState :=
  let s := { s with transitionAnimActive := false }
  let s := cleanup_transition_tiles s
  let s := { s with pixmapItem :=
    { s.pixmapItem with opacity := 1, posX := 0, posY := 0, scale := 1,
                        rotation := 0, originX := 0, originY := 0 } }
  let s := { s with nextPixmapItem :=
    { s.nextPixmapItem with visible := false, opacity := 1, posX := 0,
                            posY := 0, scale := 1, rotation := 0,
                            originX := 0, originY := 0, zValue := 1 } }
  { s with transitionActive := false, transitionType := none,
           transitionData := .empty, incomingPixmap := .null }

/-- `_prepare_motion_parameters` (image_viewer.py lines 654-676).  The final
`apply_motion_progress(0.0)` call only writes the view transform, which is
outside the modelled state. -/
def prepare_motion_parameters (d : MotionDraws) (s : ViewerState) :
    ViewerState :=
  let pixmap := s.pixmapItem.pixmap
  if pixmap.isNull then { s with motionPrepared := false }
  else
    let s :=
      if d.zoomIn then { s with startScale := 1, endScale := d.scaleDraw }
      else { s with startScale := d.scaleDraw, endScale := 1 }
    { s with
      totalDx := (pixmap.width : ℚ) * d.panAmt * d.cosA,
      totalDy := (pixmap.height : ℚ) * d.panAmt * d.sinA,
      motionPrepared := true }

/-- `_apply_pixmap_immediately` (image_viewer.py lines 325-341).  Scene
rect, `resetTransform`, `_fit_pixmap` and overlay repositioning are
view-level and outside the modelled state. -/
def apply_pixmap_immediately (md : MotionDraws) (p : Pixmap)
    (s : ViewerState) : ViewerState :=
  let s := reset_transition_items s
  let s := { s with currentPixmap := p,
                    pixmapItem := { s.pixmapItem with pixmap := p } }
  if s.motionEnabled then
    let s := prepare_motion_parameters md s
    if 0 < s.motionDuration then { s with motionTimerActive := true } else s
  else { s with motionPrepared := false }

/-- `_choose_transition` (image_viewer.py lines 420-423): `random.choice`
over the available list, modelled by an arbitrary index modulo its
length. -/
def choose_transition (choiceIdx : ℕ) (s : ViewerState) : String :=
  if s.availableTransitions.isEmpty then "crossfade"
  else
    (s.availableTransitions.get?
      (choiceIdx % s.availableTransitions.length)).getD "crossfade"

/-- `_create_mosaic_tiles` (image_viewer.py lines 557-588): a 6 by 5 grid
of tiles cut from the old pixmap, each with a random scatter offset.  The
tile corner coordinates use Python `int(col * width / cols)`, which for
these non-negative quantities is floor division. -/
def create_mosaic_tiles (d : Draws) (oldPix : Pixmap) (s : ViewerState) :
    ViewerState :=
  let s := cleanup_transition_tiles s
  if oldPix.isNull then s
  else
    let w := oldPix.width
    let h := oldPix.height
    let tiles := (List.range 6).flatMap fun col =>
      (List.range 5).map fun row =>
        let x := col * w / 6
        let y := row * h / 5
        let nx := (col + 1) * w / 6
        let ny := (row + 1) * h / 5
        let tw := max 1 (nx - x)
        let th := max 1 (ny - y)
        let dist := d.tileDist col row
        { tileW := tw, tileH := th,
          originX := (x : ℚ), originY := (y : ℚ),
          offsetX := d.tileCos col row * dist,
          offsetY := d.tileSin col row * dist,
          posX := (x : ℚ), posY := (y : ℚ),
          opacity := 1, zValue := 5 : Tile }
    { s with transitionTiles := tiles }

/-- `_update_pixelated_pixmap` (image_viewer.py lines 590-616).  The double
rescale ends at the incoming pixmap's dimensions clamped to at least 1;
only those dimensions are modelled. -/
def update_pixelated_pixmap (s : ViewerState) : ViewerState :=
  if s.incomingPixmap.isNull then s
  else
    let w := max 1 s.incomingPixmap.width
    let h := max 1 s.incomingPixmap.height
    { s with nextPixmapItem := { s.nextPixmapItem with pixmap := .img w h } }

/-- Crossfade branch of `_apply_transition_progress`
(image_viewer.py lines 440-442). -/
def progress_crossfade (p : ℚ) (s : ViewerState) : ViewerState :=
  { s with nextPixmapItem := { s.nextPixmapItem with opacity := p },
           pixmapItem := { s.pixmapItem with opacity := 1 - p } }

/-- Horizontal-slide branch of `_apply_transition_progress`
(image_viewer.py lines 443-447). -/
def progress_slide_h (p : ℚ) (s : ViewerState) : ViewerState :=
  let dir : ℚ := (s.transitionData.getDirection : ℚ)
  let dist : ℚ := (s.transitionData.getDistance : ℚ)
  { s with
    nextPixmapItem :=
      { s.nextPixmapItem with posX := dir * (1 - p) * dist, posY := 0 },
    pixmapItem :=
      { s.pixmapItem with posX := -dir * p * dist, posY := 0 } }

/-- Vertical-slide branch of `_apply_transition_progress`
(image_viewer.py lines 448-452). -/
def progress_slide_v (p : ℚ) (s : ViewerState) : ViewerState :=
  let dir : ℚ := (s.transitionData.getDirection : ℚ)
  let dist : ℚ := (s.transitionData.getDistance : ℚ)
  { s with
    nextPixmapItem :=
      { s.nextPixmapItem with posX := 0, posY := dir * (1 - p) * dist },
    pixmapItem :=
      { s.pixmapItem with posX := 0, posY := -dir * p * dist } }

/-- Zoom branch of `_apply_transition_progress`
(image_viewer.py lines 453-459). -/
def progress_zoom (p : ℚ) (s : ViewerState) : ViewerState :=
  let startS := s.transitionData.getStartScale
  let endS := s.transitionData.getEndScale
  { s with
    nextPixmapItem :=
      { s.nextPixmapItem with
        scale := startS + (endS - startS) * p, opacity := p },
    pixmapItem := { s.pixmapItem with opacity := 1 - p } }

/-- Carousel branch of `_apply_transition_progress`
(image_viewer.py lines 460-470). -/
def progress_carousel (p : ℚ) (s : ViewerState) : ViewerState :=
  let w : ℚ := (s.transitionData.getWidth : ℚ)
  { s with
    pixmapItem :=
      { s.pixmapItem with
        posX := -w * (7/20) * p, posY := 0,
        opacity := 1 - (7/10) * p, scale := 1 - (1/5) * p,
        rotation := -18 * p },
    nextPixmapItem :=
      { s.nextPixmapItem with
        posX := w * (11/20) * (1 - p) - w * (1/10), posY := 0,
        opacity := 1/5 + (4/5) * p, scale := 4/5 + (1/5) * p,
        rotation := 12 * (1 - p) } }

/-- Mosaic branch of `_apply_transition_progress`
(image_viewer.py lines 471-477). -/
def progress_mosaic (p : ℚ) (s : ViewerState) : ViewerState :=
  let s := { s with transitionTiles := s.transitionTiles.map fun (t : Tile) =>
    { t with posX := t.originX + t.offsetX * p,
             posY := t.originY + t.offsetY * p,
             opacity := 1 - p } }
  { s with nextPixmapItem := { s.nextPixmapItem with opacity := p } }

/-- Pixelate branch of `_apply_transition_progress`
(image_viewer.py lines 478-481). -/
def progress_pixelate (p : ℚ) (s : ViewerState) : ViewerState :=
  let s := { s with
    pixmapItem := { s.pixmapItem with opacity := 1 - p },
    nextPixmapItem := { s.nextPixmapItem with opacity := 1 } }
  update_pixelated_pixmap s

/-- `_apply_transition_progress` (image_viewer.py lines 434-483), as the
dispatch over the per-kind branch functions above.  Overlay repositioning
at the end of the source function is view-level. -/
def apply_transition_progress (p : ℚ) (s : ViewerState) : ViewerState :=
  if !s.transitionActive then s
  else
    let q := max 0 (min 1 p)
    if s.transitionType = some "crossfade" then progress_crossfade q s
    else if s.transitionType = some "slide-horizontal" then
      progress_slide_h q s
    else if s.transitionType = some "slide-vertical" then
      progress_slide_v q s
    else if s.transitionType = some "zoom" then progress_zoom q s
    else if s.transitionType = some "carousel" then progress_carousel q s
    else if s.transitionType = some "mosaic" then progress_mosaic q s
    else if s.transitionType = some "pixelate" then progress_pixelate q s
    else s

/-- Layer priming common to all kinds in `_start_transition`
(image_viewer.py lines 354-366): both layers to the inert pose, the new
pixmap installed on the incoming layer, transform origins at the pixmap
centres. -/
def prime_layers (oldPix newPix : Pixmap) (s : ViewerState) : ViewerState :=
  let s := { s with pixmapItem :=
    { s.pixmapItem with posX := 0, posY := 0, scale := 1, rotation := 0,
                        opacity := 1,
                        originX := (oldPix.width : ℚ) / 2,
                        originY := (oldPix.height : ℚ) / 2 } }
  { s with nextPixmapItem :=
    { s.nextPixmapItem with pixmap := newPix, visible := true, opacity := 1,
                            posX := 0, posY := 0, scale := 1, rotation := 0,
                            originX := (newPix.width : ℚ) / 2,
                            originY := (newPix.height : ℚ) / 2 } }

/-- Crossfade setup (image_viewer.py lines 368-371). -/
def setup_crossfade (s : ViewerState) : ViewerState :=
  { s with pixmapItem := { s.pixmapItem with opacity := 1 },
           nextPixmapItem := { s.nextPixmapItem with opacity := 0 },
           transitionDurationMs := 700 }

/-- Horizontal-slide setup (image_viewer.py lines 372-377). -/
def setup_slide_h (dirPos : Bool) (oldPix newPix : Pixmap)
    (s : ViewerState) : ViewerState :=
  let dir : ℤ := if dirPos then 1 else -1
  let dist := max oldPix.width newPix.width
  { s with
    nextPixmapItem :=
      { s.nextPixmapItem with posX := (dir : ℚ) * (dist : ℚ), posY := 0 },
    transitionData := .slide dir dist, transitionDurationMs := 650 }

/-- Vertical-slide setup (image_viewer.py lines 378-383). -/
def setup_slide_v (dirPos : Bool) (oldPix newPix : Pixmap)
    (s : ViewerState) : ViewerState :=
  let dir : ℤ := if dirPos then 1 else -1
  let dist := max oldPix.height newPix.height
  { s with
    nextPixmapItem :=
      { s.nextPixmapItem with posX := 0, posY := (dir : ℚ) * (dist : ℚ) },
    transitionData := .slide dir dist, transitionDurationMs := 650 }

/-- Zoom setup (image_viewer.py lines 384-390). -/
def setup_zoom (zoomIn : Bool) (s : ViewerState) : ViewerState :=
  let startS : ℚ := if zoomIn then 7/10 else 6/5
  { s with
    nextPixmapItem :=
      { s.nextPixmapItem with scale := startS, opacity := 0 },
    transitionData := .zoomData startS 1, transitionDurationMs := 750 }

/-- Carousel setup (image_viewer.py lines 391-399). -/
def setup_carousel (oldPix newPix : Pixmap) (s : ViewerState) :
    ViewerState :=
  let w := max oldPix.width newPix.width
  { s with
    pixmapItem :=
      { s.pixmapItem with originX := (oldPix.width : ℚ) / 2,
                          originY := (oldPix.height : ℚ) / 2 },
    nextPixmapItem :=
      { s.nextPixmapItem with originX := (newPix.width : ℚ) / 2,
                              originY := (newPix.height : ℚ) / 2,
                              scale := 4/5, opacity := 1/5,
                              posX := (w : ℚ) * (11/20), posY := 0 },
    transitionData := .carouselData w, transitionDurationMs := 800 }

/-- Mosaic setup (image_viewer.py lines 400-405). -/
def setup_mosaic (d : Draws) (oldPix : Pixmap) (s : ViewerState) :
    ViewerState :=
  let s := create_mosaic_tiles d oldPix s
  { s with
    pixmapItem := { s.pixmapItem with opacity := 0 },
    nextPixmapItem :=
      { s.nextPixmapItem with opacity := 0, zValue := -1 },
    transitionDurationMs := 900 }

/-- Pixelate setup (image_viewer.py lines 406-408). -/
def setup_pixelate (s : ViewerState) : ViewerState :=
  { s with nextPixmapItem := { s.nextPixmapItem with opacity := 1 },
           transitionDurationMs := 650 }

/-- Fallback setup (image_viewer.py lines 409-413): unreachable for
validated kinds, forces crossfade. -/
def setup_fallback (s : ViewerState) : ViewerState :=
  { s with transitionType := some "crossfade",
           pixmapItem := { s.pixmapItem with opacity := 1 },
           nextPixmapItem := { s.nextPixmapItem with opacity := 0 },
           transitionDurationMs := 700 }

/-- `_start_transition` (image_viewer.py lines 343-418).  The scene-rect
computation is view-level; `setDuration` values are recorded in
`transitionDurationMs`. -/
def start_transition (d : Draws) (t0 : String) (s : ViewerState) :
    ViewerState :=
  let s := { s with transitionActive := true }
  let t := if SUPPORTED_TRANSITIONS.contains t0 then t0
           else choose_transition d.choiceIdx s
  let s := { s with transitionType := some t, transitionData := .empty }
  let oldPix := s.pixmapItem.pixmap
  let newPix := s.incomingPixmap
  let s := prime_layers oldPix newPix s
  let s :=
    if t = "crossfade" then setup_crossfade s
    else if t = "slide-horizontal" then setup_slide_h d.dirPos oldPix newPix s
    else if t = "slide-vertical" then setup_slide_v d.dirPos oldPix newPix s
    else if t = "zoom" then setup_zoom d.zoomIn s
    else if t = "carousel" then setup_carousel oldPix newPix s
    else if t = "mosaic" then setup_mosaic d oldPix s
    else if t = "pixelate" then setup_pixelate s
    else setup_fallback s
  let s := apply_transition_progress 0 s
  { s with transitionAnimActive := true }

/-- `_finish_transition` (image_viewer.py lines 485-527): the handler run
when the transition timeline finishes. -/
def finish_transition (md : MotionDraws) (s : ViewerState) : ViewerState :=
  if !s.transitionActive then s
  else
    let s := { s with transitionAnimActive := false }
    let s :=
      if s.transitionType = some "pixelate" && !s.incomingPixmap.isNull then
        { s with nextPixmapItem :=
          { s.nextPixmapItem with pixmap := s.incomingPixmap } }
      else s
    let s := cleanup_transition_tiles s
    let s := { s with pixmapItem :=
      { s.pixmapItem with opacity := 1, posX := 0, posY := 0, scale := 1,
                          rotation := 0, originX := 0, originY := 0 } }
    let s := { s with nextPixmapItem :=
      { s.nextPixmapItem with visible := false, opacity := 1, posX := 0,
                              posY := 0, scale := 1, rotation := 0,
                              zValue := 1 } }
    let s :=
      if !s.incomingPixmap.isNull then
        let s := { s with
          currentPixmap := s.incomingPixmap,
          pixmapItem := { s.pixmapItem with pixmap := s.incomingPixmap } }
        if s.motionEnabled then
          let s := prepare_motion_parameters md s
          if 0 < s.motionDuration then { s with motionTimerActive := true }
          else s
        else { s with motionPrepared := false }
      else s
    { s with transitionActive := false, transitionType := none,
             transitionData := .empty, incomingPixmap := .null }

/-- `set_image` (image_viewer.py lines 265-306).  The decoded pixmap and
the folder/date metadata extracted from the path are passed in, since
decoding and EXIF reading are external I/O. -/
def set_image (pixmap : Pixmap) (folderText dateText : String)
    (duration : Option ℚ) (transition : Option String)
    (d : Draws) (s : ViewerState) : ViewerState :=
  if pixmap.isNull then
    { s with photoFolderText := "", photoDateText := "" }
  else
    let s := { s with motionTimerActive := false, motionAnimActive := false,
                      transitionAnimActive := false }
    let s :=
      match duration with
      | some dur => { s with motionDuration := max 0 (pyTrunc (dur * 1000)) }
      | none => s
    let s := { s with photoFolderText := folderText,
                      photoDateText := dateText }
    let requested : Option String :=
      match transition with
      | some t =>
        let tr := pyLower (pyStrip t)
        if SUPPORTED_TRANSITIONS.contains tr then some tr else none
      | none => none
    if s.pixmapItem.pixmap.isNull || s.currentPixmap.isNull then
      apply_pixmap_immediately d.motion pixmap s
    else if s.transitionActive then
      apply_pixmap_immediately d.motion pixmap (reset_transition_items s)
    else
      match requested with
      | none =>
        if s.availableTransitions.isEmpty then
          apply_pixmap_immediately d.motion pixmap s
        else
          start_transition d (choose_transition d.choiceIdx s)
            { s with incomingPixmap := pixmap }
      | some req => start_transition d req { s with incomingPixmap := pixmap }

/-- The transition-list filter of `set_available_transitions`
(image_viewer.py lines 316-323): trim, lowercase, keep supported kinds,
drop duplicates, preserve order. -/
def filterTransitions (l : List String) : List String :=
  l.foldl (fun acc t =>
    let tr := pyLower (pyStrip t)
    if SUPPORTED_TRANSITIONS.contains tr && !acc.contains tr then
      acc ++ [tr]
    else acc) []

/-- The argument of `set_available_transitions`: Python `None`, a single
string, or a list of strings. -/
inductive TransitionsArg where
  | noneArg : TransitionsArg
  | strArg : String → TransitionsArg
  | listArg : List String → TransitionsArg

/-- `set_available_transitions` (image_viewer.py lines 308-323). -/
def set_available_transitions (arg : TransitionsArg) (s : ViewerState) :
    ViewerState :=
  match arg with
  | .noneArg => { s with availableTransitions := SUPPORTED_TRANSITIONS }
  | .strArg t => { s with availableTransitions := filterTransitions [t] }
  | .listArg l => { s with availableTransitions := filterTransitions l }

/-- The fields of `SlideshowManager` (slideshow_manager.py) that the
verified sequencing operations read and write.  A time of day is a rational
number of minutes since midnight; the viewer call inside `show_image` does
not touch these fields and the transition passed to it is drawn at random,
so it is outside this state. -/
structure ManagerState where
  images : List String
  currentIndex : ℤ
  currentImagePath : Option String
  blackoutActive : Bool
deriving DecidableEq

/-- `SlideshowManager.show_image` (slideshow_manager.py lines 117-130),
restricted to the manager's own fields: the guard, the index update modulo
the list length (Python `%` on a positive modulus is `Int.emod`), and the
current-path update. -/
def show_image (s : ManagerState) (idx : ℤ) : ManagerState :=
  if s.images.isEmpty || s.blackoutActive then s
  else
    let newIdx := idx.emod (s.images.length : ℤ)
    { s with currentIndex := newIdx,
             currentImagePath := s.images.get? newIdx.toNat }

/-- `SlideshowManager.next_image` (slideshow_manager.py lines 132-136). -/
def next_image (s : ManagerState) : ManagerState :=
  if s.images.isEmpty || s.blackoutActive then s
  else
    let s := { s with
      currentIndex := (s.currentIndex + 1).emod (s.images.length : ℤ) }
    show_image s s.currentIndex

/-- `SlideshowManager._is_within_blackout` (slideshow_manager.py lines
238-250).  Python `datetime.time` values compare lexicographically on
(hour, minute, second, microsecond), which is the linear order on the
number of minutes since midnight, taken here as a rational. -/
def is_within_blackout (nightStart nightEnd : Option ℚ) (currentTime : ℚ) :
    Bool :=
  match nightStart, nightEnd with
  | some startT, some endT =>
    if startT = endT then false
    else if startT < endT then
      decide (startT ≤ currentTime ∧ currentTime < endT)
    else decide (currentTime ≥ startT ∨ currentTime < endT)
  | _, _ => false

/-- A sample decoded pixmap used in concrete witness states. -/
def pixA : Pixmap := .img 100 80

/-- A second sample decoded pixmap. -/
def pixB : Pixmap := .img 60 40

/-- A default-constructed `QGraphicsPixmapItem` layer. -/
def layer0 : Layer :=
  { pixmap := .null, posX := 0, posY := 0, scale := 1, rotation := 0,
    opacity := 1, visible := true, zValue := 0, originX := 0, originY := 0 }

/-- Sample motion draws, inside the documented ranges. -/
def md0 : MotionDraws :=
  { zoomIn := true, scaleDraw := 11/10, panAmt := 1/20, cosA := 1, sinA := 0 }

/-- Sample draws for a full `set_image` call. -/
def d0 : Draws :=
  { choiceIdx := 0, dirPos := true, zoomIn := true,
    tileCos := fun _ _ => 1, tileSin := fun _ _ => 0,
    tileDist := fun _ _ => 10, motion := md0 }

/-- A viewer state steadily showing `pixA`, with motion disabled, as after
an initial `set_image` on a fresh viewer. -/
def s0 : ViewerState :=
  { motionEnabled := false, motionTimerActive := false,
    motionAnimActive := false, transitionAnimActive := false,
    transitionDurationMs := 0, motionDuration := 5000,
    currentPixmap := pixA, startScale := 1, endScale := 1, totalDx := 0,
    totalDy := 0, motionPrepared := false, transitionActive := false,
    transitionType := none, transitionData := .empty, transitionTiles := [],
    incomingPixmap := .null, availableTransitions := SUPPORTED_TRANSITIONS,
    pixmapItem := { layer0 with pixmap := pixA },
    nextPixmapItem := { layer0 with visible := false, zValue := 1 },
    photoFolderText := "a", photoDateText := "" }

/-- Field-level description of `_apply_pixmap_immediately`: it clears the
tiles and all transition bookkeeping, installs the new pixmap on the
current layer, leaves the motion duration alone, and starts the motion
timer exactly when motion is enabled and the stored duration is
positive. -/
theorem apply_pixmap_immediately_spec (md : MotionDraws) (p : Pixmap)
    (s : ViewerState) :
    (apply_pixmap_immediately md p s).transitionTiles = [] ∧
    (apply_pixmap_immediately md p s).transitionActive = false ∧
    (apply_pixmap_immediately md p s).transitionAnimActive = false ∧
    (apply_pixmap_immediately md p s).currentPixmap = p ∧
    (apply_pixmap_immediately md p s).pixmapItem.pixmap = p ∧
    (apply_pixmap_immediately md p s).motionDuration = s.motionDuration ∧
    (apply_pixmap_immediately md p s).motionEnabled = s.motionEnabled ∧
    (apply_pixmap_immediately md p s).motionTimerActive =
      (s.motionTimerActive ||
        (s.motionEnabled && decide (0 < s.motionDuration))) := by
  simp only [apply_pixmap_immediately, reset_transition_items,
    cleanup_transition_tiles, prepare_motion_parameters]
  split_ifs <;> simp_all

/-- `_prepare_motion_parameters` only writes the motion-parameter fields:
everything the transition engine owns is untouched. -/
theorem prepare_motion_parameters_frame (d : MotionDraws)
    (s : ViewerState) :
    (prepare_motion_parameters d s).currentPixmap = s.currentPixmap ∧
    (prepare_motion_parameters d s).pixmapItem = s.pixmapItem ∧
    (prepare_motion_parameters d s).nextPixmapItem = s.nextPixmapItem ∧
    (prepare_motion_parameters d s).transitionTiles = s.transitionTiles ∧
    (prepare_motion_parameters d s).transitionActive = s.transitionActive ∧
    (prepare_motion_parameters d s).incomingPixmap = s.incomingPixmap ∧
    (prepare_motion_parameters d s).motionTimerActive =
      s.motionTimerActive ∧
    (prepare_motion_parameters d s).motionDuration = s.motionDuration ∧
    (prepare_motion_parameters d s).motionEnabled = s.motionEnabled := by
  simp only [prepare_motion_parameters]
  split_ifs <;> simp_all

/-- C3: on decode failure (null pixmap) `set_image` clears only the
transient folder/date metadata text and leaves every other field of the
viewer state unchanged, returning normally. -/
theorem set_image_decode_failure (pix : Pixmap) (h : pix.isNull = true)
    (folderText dateText : String) (duration : Option ℚ)
    (transition : Option String) (d : Draws) (s : ViewerState) :
    set_image pix folderText dateText duration transition d s =
      { s with photoFolderText := "", photoDateText := "" } := by
  simp [set_image, h]

/-- Witness for the decode-failure theorem at a concrete input. -/
theorem set_image_decode_failure_witness :
    Pixmap.null.isNull = true ∧
    set_image .null "folder" "date" none none d0 s0 =
      { s0 with photoFolderText := "", photoDateText := "" } :=
  ⟨rfl, set_image_decode_failure .null rfl "folder" "date" none none d0 s0⟩

/-- C6: `_is_within_blackout` handles wraparound windows: when the start
time is after the end time it holds iff the current time is at or after the
start or before the end, when the start is before the end it holds iff the
current time is in the half-open window, and for the 22:00-07:00 window it
holds at 23:00 and fails at 12:00. -/
theorem is_within_blackout_wraparound (startT endT t : ℚ) :
    (endT < startT →
      (is_within_blackout (some startT) (some endT) t = true ↔
        (t ≥ startT ∨ t < endT))) ∧
    (startT < endT →
      (is_within_blackout (some startT) (some endT) t = true ↔
        (startT ≤ t ∧ t < endT))) ∧
    is_within_blackout (some 1320) (some 420) 1380 = true ∧
    is_within_blackout (some 1320) (some 420) 720 = false := by
  refine ⟨fun h => ?_, fun h => ?_, by decide, by decide⟩
  · rw [is_within_blackout, if_neg (ne_of_gt h), if_neg (not_lt.mpr h.le)]
    simp
  · rw [is_within_blackout, if_neg (ne_of_lt h), if_pos h]
    simp

/-- Witness for the wraparound theorem at concrete inputs. -/
theorem is_within_blackout_wraparound_witness :
    is_within_blackout (some 1320) (some 420) 1380 = true ∧
    is_within_blackout (some 30) (some 60) 45 = true := by
  constructor
  · exact ((is_within_blackout_wraparound 1320 420 1380).1
      (by norm_num)).mpr (Or.inl (by norm_num))
  · exact ((is_within_blackout_wraparound 30 60 45).2.1
      (by norm_num)).mpr ⟨by norm_num, by norm_num⟩

/-- C10: a blackout window whose start and end coincide never blacks out
the display, for every current time, and a missing start or end time also
yields no blackout. -/
theorem is_within_blackout_degenerate (t x : ℚ) (e : Option ℚ) :
    is_within_blackout (some x) (some x) t = false ∧
    is_within_blackout none e t = false ∧
    is_within_blackout e none t = false := by
  refine ⟨by simp [is_within_blackout], ?_, ?_⟩
  · cases e <;> simp [is_within_blackout]
  · cases e <;> simp [is_within_blackout]

/-- C9: with a non-empty image list and blackout inactive, `show_image`
puts the current index at the requested index modulo the list length, hence
in range, and makes the current path the list entry at that index;
`next_image` preserves the invariant by advancing modulo the length. -/
theorem show_image_index_invariant (s : ManagerState) (idx : ℤ)
    (h1 : s.images ≠ []) (h2 : s.blackoutActive = false) :
    ((show_image s idx).currentIndex =
        idx.emod (s.images.length : ℤ) ∧
      0 ≤ (show_image s idx).currentIndex ∧
      (show_image s idx).currentIndex < (s.images.length : ℤ) ∧
      (show_image s idx).currentImagePath =
        s.images.get? (show_image s idx).currentIndex.toNat ∧
      ((show_image s idx).currentImagePath).isSome = true) ∧
    ((next_image s).currentIndex =
        (s.currentIndex + 1).emod (s.images.length : ℤ) ∧
      0 ≤ (next_image s).currentIndex ∧
      (next_image s).currentIndex < (s.images.length : ℤ) ∧
      (next_image s).currentImagePath =
        s.images.get? (next_image s).currentIndex.toNat ∧
      ((next_image s).currentImagePath).isSome = true) := by
  have hlen : 0 < (s.images.length : ℤ) := by
    exact_mod_cast List.length_pos.mpr h1
  have hne : (s.images.length : ℤ) ≠ 0 := ne_of_gt hlen
  have hempty : s.images.isEmpty = false := by
    simp [List.isEmpty_iff, h1]
  have hsome : ∀ j : ℤ, 0 ≤ j → j < (s.images.length : ℤ) →
      (s.images.get? j.toNat).isSome = true := by
    intro j hj0 hjl
    have hj : j.toNat < s.images.length := by omega
    simp [List.getElem?_eq_getElem hj]
  have hshow : ∀ (t : ManagerState), t.images = s.images →
      t.blackoutActive = false → ∀ j : ℤ, show_image t j =
        { t with currentIndex := j.emod (s.images.length : ℤ),
                 currentImagePath :=
                   s.images.get? (j.emod (s.images.length : ℤ)).toNat } := by
    intro t ht hb j
    simp only [show_image, ht, hb, hempty]
    simp
  have hmm : ((s.currentIndex + 1).emod (s.images.length : ℤ)).emod
      (s.images.length : ℤ) =
      (s.currentIndex + 1).emod (s.images.length : ℤ) :=
    Int.emod_emod_of_dvd _ dvd_rfl
  constructor
  · rw [hshow s rfl h2 idx]
    exact ⟨rfl, Int.emod_nonneg idx hne, Int.emod_lt_of_pos idx hlen, rfl,
      hsome _ (Int.emod_nonneg idx hne) (Int.emod_lt_of_pos idx hlen)⟩
  · have hnext : next_image s =
        show_image
          { s with currentIndex :=
              (s.currentIndex + 1).emod (s.images.length : ℤ) }
          ((s.currentIndex + 1).emod (s.images.length : ℤ)) := by
      simp only [next_image, hempty, h2]
      simp
    rw [hnext, hshow
      { s with currentIndex := (s.currentIndex + 1).emod (s.images.length : ℤ) }
      rfl h2 ((s.currentIndex + 1).emod (s.images.length : ℤ))]
    refine ⟨hmm, Int.emod_nonneg _ hne, Int.emod_lt_of_pos _ hlen, ?_, ?_⟩
    · show s.images.get? _ = s.images.get? _
      rw [hmm]
    · exact hsome _ (Int.emod_nonneg _ hne) (Int.emod_lt_of_pos _ hlen)

/-- Witness for the sequencer-index theorem at a concrete input. -/
theorem show_image_index_invariant_witness :
    (show_image { images := ["p", "q", "r"], currentIndex := 0,
                  currentImagePath := none, blackoutActive := false }
        5).currentIndex = 2 := by
  have h := (show_image_index_invariant
    { images := ["p", "q", "r"], currentIndex := 0,
      currentImagePath := none, blackoutActive := false } 5
    (by decide) rfl).1.1
  rw [h]
  decide

/-- C1: calling `set_image` with a decodable image while a transition is
running discards the interrupted transition completely - the tile list is
empty, no transition is active or animating afterwards - and the new image
is installed immediately as the current pixmap, with no new transition
started. -/
theorem set_image_during_transition_discards (pix : Pixmap)
    (hpix : pix.isNull = false) (folderText dateText : String)
    (duration : Option ℚ) (transition : Option String) (d : Draws)
    (s : ViewerState) (hact : s.transitionActive = true) :
    (set_image pix folderText dateText duration transition d s).transitionTiles
        = [] ∧
    (set_image pix folderText dateText duration transition d
        s).transitionActive = false ∧
    (set_image pix folderText dateText duration transition d
        s).transitionAnimActive = false ∧
    (set_image pix folderText dateText duration transition d
        s).currentPixmap = pix ∧
    (set_image pix folderText dateText duration transition d
        s).pixmapItem.pixmap = pix := by
  have hx : ∀ (t : ViewerState),
      (apply_pixmap_immediately d.motion pix t).transitionTiles = [] ∧
      (apply_pixmap_immediately d.motion pix t).transitionActive = false ∧
      (apply_pixmap_immediately d.motion pix t).transitionAnimActive
          = false ∧
      (apply_pixmap_immediately d.motion pix t).currentPixmap = pix ∧
      (apply_pixmap_immediately d.motion pix t).pixmapItem.pixmap = pix :=
    fun t =>
      ⟨(apply_pixmap_immediately_spec d.motion pix t).1,
       (apply_pixmap_immediately_spec d.motion pix t).2.1,
       (apply_pixmap_immediately_spec d.motion pix t).2.2.1,
       (apply_pixmap_immediately_spec d.motion pix t).2.2.2.1,
       (apply_pixmap_immediately_spec d.motion pix t).2.2.2.2.1⟩
  simp only [set_image, hpix, Bool.false_eq_true, if_false]
  cases duration <;>
    · dsimp only
      split
      · exact hx _
      · exact hx _

/-- Witness for the interrupted-transition theorem: a concrete mid-mosaic
state interrupted by a new image. -/
theorem set_image_during_transition_discards_witness :
    pixB.isNull = false ∧
    ({ s0 with transitionActive := true,
               transitionType := some "mosaic",
               incomingPixmap := pixB } : ViewerState).transitionActive
      = true ∧
    (set_image pixB "f" "g" none none d0
      { s0 with transitionActive := true,
                transitionType := some "mosaic",
                incomingPixmap := pixB }).transitionTiles = [] ∧
    (set_image pixB "f" "g" none none d0
      { s0 with transitionActive := true,
                transitionType := some "mosaic",
                incomingPixmap := pixB }).transitionActive = false := by
  refine ⟨rfl, rfl, ?_, ?_⟩
  · exact (set_image_during_transition_discards pixB rfl "f" "g" none none
      d0 _ rfl).1
  · exact (set_image_during_transition_discards pixB rfl "f" "g" none none
      d0 _ rfl).2.1

/-- C2: for every one of the seven transition kinds, when the transition
timeline completes the finished handler makes the incoming image the
current image, releases all tiles, resets both layers to the identity pose
(position (0,0), scale 1, rotation 0, opacity 1 on the current layer),
hides the incoming layer and clears the incoming-pixmap slot, leaving the
transition state idle. -/
theorem finish_transition_identity_pose (md : MotionDraws)
    (s : ViewerState) (k : String) (hk : k ∈ SUPPORTED_TRANSITIONS)
    (ht : s.transitionType = some k) (hact : s.transitionActive = true)
    (hin : s.incomingPixmap.isNull = false) :
    (finish_transition md s).currentPixmap = s.incomingPixmap ∧
    (finish_transition md s).pixmapItem.pixmap = s.incomingPixmap ∧
    (finish_transition md s).transitionTiles = [] ∧
    (finish_transition md s).pixmapItem.posX = 0 ∧
    (finish_transition md s).pixmapItem.posY = 0 ∧
    (finish_transition md s).pixmapItem.scale = 1 ∧
    (finish_transition md s).pixmapItem.rotation = 0 ∧
    (finish_transition md s).pixmapItem.opacity = 1 ∧
    (finish_transition md s).nextPixmapItem.visible = false ∧
    (finish_transition md s).nextPixmapItem.posX = 0 ∧
    (finish_transition md s).nextPixmapItem.posY = 0 ∧
    (finish_transition md s).nextPixmapItem.scale = 1 ∧
    (finish_transition md s).nextPixmapItem.rotation = 0 ∧
    (finish_transition md s).nextPixmapItem.opacity = 1 ∧
    (finish_transition md s).incomingPixmap = .null ∧
    (finish_transition md s).transitionActive = false ∧
    (finish_transition md s).transitionType = none := by
  simp only [finish_transition, cleanup_transition_tiles,
    prepare_motion_parameters, hact, hin, Bool.not_true, Bool.false_eq_true,
    if_false, Bool.and_false, Bool.not_false, if_true]
  split_ifs <;> simp_all

/-- Witness for the completion theorem: finishing a running crossfade at a
concrete state. -/
theorem finish_transition_identity_pose_witness :
    (({ s0 with transitionActive := true,
                transitionType := some "crossfade",
                incomingPixmap := pixB } : ViewerState).transitionActive
        = true) ∧
    (finish_transition md0
      { s0 with transitionActive := true,
                transitionType := some "crossfade",
                incomingPixmap := pixB }).currentPixmap = pixB ∧
    (finish_transition md0
      { s0 with transitionActive := true,
                transitionType := some "crossfade",
                incomingPixmap := pixB }).transitionActive = false := by
  refine ⟨rfl, ?_, ?_⟩
  · exact (finish_transition_identity_pose md0
      { s0 with transitionActive := true,
                transitionType := some "crossfade",
                incomingPixmap := pixB } "crossfade"
      (by decide) rfl rfl (by decide)).1
  · exact (finish_transition_identity_pose md0
      { s0 with transitionActive := true,
                transitionType := some "crossfade",
                incomingPixmap := pixB } "crossfade"
      (by decide) rfl rfl
      (by decide)).2.2.2.2.2.2.2.2.2.2.2.2.2.2.2.1

/-- C4 counterexample: in a steady state whose enabled transition set is
just the zoom kind, a `show()` call with the unsupported hint string
"wipe" starts a zoom transition, not a crossfade - the engine does not
fall back to crossfade on an unsupported hint. -/
theorem unsupported_hint_not_crossfade :
    (set_image pixB "f" "g" none (some "wipe") d0
      { s0 with availableTransitions := ["zoom"] }).transitionActive
        = true ∧
    (set_image pixB "f" "g" none (some "wipe") d0
      { s0 with availableTransitions := ["zoom"] }).transitionType
        = some "zoom" ∧
    some "zoom" ≠ some "crossfade" :=
  ⟨by decide, by decide, by decide⟩

/-- C4 amended: a `show()` call whose transition hint does not normalise
to one of the seven supported identifiers behaves exactly like a call with
no hint at all - the hint is silently discarded, so the kind used is a
uniform random pick from the currently enabled transition set (or the image
is set immediately when that set is empty), and no error is surfaced. -/
theorem unsupported_hint_ignored (pix : Pixmap)
    (folderText dateText : String) (duration : Option ℚ) (t : String)
    (hu : SUPPORTED_TRANSITIONS.contains (pyLower (pyStrip t)) = false)
    (d : Draws) (s : ViewerState) :
    set_image pix folderText dateText duration (some t) d s =
      set_image pix folderText dateText duration none d s := by
  simp only [set_image, hu, Bool.false_eq_true, if_false]

/-- Witness for the amended unsupported-hint theorem at a concrete
input. -/
theorem unsupported_hint_ignored_witness :
    SUPPORTED_TRANSITIONS.contains (pyLower (pyStrip "wipe")) = false ∧
    set_image pixB "f" "g" none (some "wipe") d0 s0 =
      set_image pixB "f" "g" none none d0 s0 :=
  ⟨by decide,
   unsupported_hint_ignored pixB "f" "g" none "wipe" (by decide) d0 s0⟩

/-- Bounding step for the pan vector: a product of a non-negative width, a
pan fraction bounded by 0.08 and a cosine or sine bounded by 1 in absolute
value stays within 0.08 of the width. -/
theorem pan_component_bound (w pa c : ℚ) (hw : 0 ≤ w) (hpa : 0 ≤ pa)
    (hpa8 : pa ≤ 2/25) (hc : |c| ≤ 1) : |w * pa * c| ≤ (2/25) * w := by
  have h1 : |w * pa * c| = w * pa * |c| := by
    rw [abs_mul, abs_of_nonneg (mul_nonneg hw hpa)]
  rw [h1]
  nlinarith [abs_nonneg c, mul_le_mul_of_nonneg_left hc
      (mul_nonneg hw hpa),
    mul_le_mul_of_nonneg_left hpa8 hw]

/-- C5: for every motion-parameter preparation on a non-null pixmap, with
the random draws in their documented ranges, exactly one of the start/end
scales equals 1 while the other lies in the interval from 1.08 to 1.2, and
each pan component is bounded by 0.08 times the corresponding image
dimension. -/
theorem prepare_motion_parameters_bounds (d : MotionDraws)
    (s : ViewerState) (hpix : s.pixmapItem.pixmap.isNull = false)
    (hs1 : 27/25 ≤ d.scaleDraw) (hs2 : d.scaleDraw ≤ 6/5)
    (hp1 : 1/50 ≤ d.panAmt) (hp2 : d.panAmt ≤ 2/25)
    (hc : |d.cosA| ≤ 1) (hsn : |d.sinA| ≤ 1) :
    (((prepare_motion_parameters d s).startScale = 1 ∧
        (prepare_motion_parameters d s).endScale ≠ 1 ∧
        27/25 ≤ (prepare_motion_parameters d s).endScale ∧
        (prepare_motion_parameters d s).endScale ≤ 6/5) ∨
      ((prepare_motion_parameters d s).endScale = 1 ∧
        (prepare_motion_parameters d s).startScale ≠ 1 ∧
        27/25 ≤ (prepare_motion_parameters d s).startScale ∧
        (prepare_motion_parameters d s).startScale ≤ 6/5)) ∧
    |(prepare_motion_parameters d s).totalDx| ≤
      (2/25) * (s.pixmapItem.pixmap.width : ℚ) ∧
    |(prepare_motion_parameters d s).totalDy| ≤
      (2/25) * (s.pixmapItem.pixmap.height : ℚ) := by
  have hw : (0 : ℚ) ≤ (s.pixmapItem.pixmap.width : ℚ) := by positivity
  have hh : (0 : ℚ) ≤ (s.pixmapItem.pixmap.height : ℚ) := by positivity
  have hpa : (0 : ℚ) ≤ d.panAmt := by linarith
  have hne : d.scaleDraw ≠ 1 := by
    intro h
    rw [h] at hs1
    norm_num at hs1
  simp only [prepare_motion_parameters, hpix, Bool.false_eq_true, if_false]
  split_ifs with hz
  · exact ⟨Or.inl ⟨rfl, hne, hs1, hs2⟩,
      pan_component_bound _ _ _ hw hpa hp2 hc,
      pan_component_bound _ _ _ hh hpa hp2 hsn⟩
  · exact ⟨Or.inr ⟨rfl, hne, hs1, hs2⟩,
      pan_component_bound _ _ _ hw hpa hp2 hc,
      pan_component_bound _ _ _ hh hpa hp2 hsn⟩

/-- Witness for the motion-parameter bounds at a concrete state and
concrete draws. -/
theorem prepare_motion_parameters_bounds_witness :
    s0.pixmapItem.pixmap.isNull = false ∧
    (prepare_motion_parameters md0 s0).startScale = 1 ∧
    (prepare_motion_parameters md0 s0).endScale = 11/10 ∧
    |(prepare_motion_parameters md0 s0).totalDx| ≤
      (2/25) * (s0.pixmapItem.pixmap.width : ℚ) := by
  refine ⟨by decide, ?_, ?_, ?_⟩
  · simp [prepare_motion_parameters, md0, s0, layer0, pixA, Pixmap.isNull]
  · simp [prepare_motion_parameters, md0, s0, layer0, pixA, Pixmap.isNull]
  · exact (prepare_motion_parameters_bounds md0 s0 (by decide)
      (by norm_num [md0]) (by norm_num [md0]) (by norm_num [md0])
      (by norm_num [md0]) (by norm_num [md0]) (by norm_num [md0])).2.1

/-- `_apply_transition_progress` never touches the motion bookkeeping, the
incoming pixmap slot, the transition-active flag, the transition kind or
the available-transition list. -/
theorem apply_transition_progress_frame (p : ℚ) (s : ViewerState) :
    (apply_transition_progress p s).motionEnabled = s.motionEnabled ∧
    (apply_transition_progress p s).motionTimerActive =
      s.motionTimerActive ∧
    (apply_transition_progress p s).motionDuration = s.motionDuration ∧
    (apply_transition_progress p s).incomingPixmap = s.incomingPixmap ∧
    (apply_transition_progress p s).transitionActive =
      s.transitionActive ∧
    (apply_transition_progress p s).transitionType = s.transitionType ∧
    (apply_transition_progress p s).availableTransitions =
      s.availableTransitions := by
  simp only [apply_transition_progress]
  split_ifs <;>
    first
      | exact ⟨rfl, rfl, rfl, rfl, rfl, rfl, rfl⟩
      | (simp only [progress_pixelate, update_pixelated_pixmap]
         split_ifs <;> exact ⟨rfl, rfl, rfl, rfl, rfl, rfl, rfl⟩)

set_option maxHeartbeats 1000000 in
/-- `_start_transition` never touches the motion bookkeeping or the
available-transition list, keeps the incoming pixmap slot, and leaves the
transition marked active. -/
theorem start_transition_frame (d : Draws) (t0 : String)
    (s : ViewerState) :
    (start_transition d t0 s).motionEnabled = s.motionEnabled ∧
    (start_transition d t0 s).motionTimerActive = s.motionTimerActive ∧
    (start_transition d t0 s).motionDuration = s.motionDuration ∧
    (start_transition d t0 s).incomingPixmap = s.incomingPixmap ∧
    (start_transition d t0 s).transitionActive = true ∧
    (start_transition d t0 s).availableTransitions =
      s.availableTransitions := by
  have hf := fun t => apply_transition_progress_frame 0 t
  simp only [start_transition]
  refine ⟨((hf _).1).trans ?_, ((hf _).2.1).trans ?_,
    ((hf _).2.2.1).trans ?_, ((hf _).2.2.2.1).trans ?_,
    ((hf _).2.2.2.2.1).trans ?_, ((hf _).2.2.2.2.2.2).trans ?_⟩ <;>
    split_ifs <;>
      first
        | rfl
        | (dsimp only [setup_mosaic, create_mosaic_tiles,
             cleanup_transition_tiles]
           split_ifs <;> rfl)

/-- `_choose_transition` on a singleton available list always returns its
element, whatever the random index. -/
theorem choose_transition_singleton (i : ℕ) (s : ViewerState)
    (h : s.availableTransitions = ["zoom"]) :
    choose_transition i s = "zoom" := by
  simp [choose_transition, h, Nat.mod_one]

set_option maxHeartbeats 1000000 in
/-- `_start_transition` keeps the requested kind when it is supported:
the in-function re-validation does not replace it and no branch falls back
to crossfade. -/
theorem start_transition_type_supported (d : Draws) (t0 : String)
    (hsup : SUPPORTED_TRANSITIONS.contains t0 = true) (s : ViewerState) :
    (start_transition d t0 s).transitionType = some t0 := by
  have hf := fun t => apply_transition_progress_frame 0 t
  simp only [start_transition, hsup, if_true]
  refine ((hf _).2.2.2.2.2.1).trans ?_
  split_ifs <;>
    first
      | rfl
      | (dsimp only [setup_mosaic, create_mosaic_tiles,
           cleanup_transition_tiles]
         split_ifs <;> rfl)
      | (exfalso
         simp [SUPPORTED_TRANSITIONS] at hsup
         simp_all)

/-- `_finish_transition` is the identity when no transition is active. -/
theorem finish_transition_inactive (md : MotionDraws) (s : ViewerState)
    (h : s.transitionActive = false) : finish_transition md s = s := by
  simp [finish_transition, h]

/-- `_finish_transition` does not start the motion timer when the stored
motion duration is not positive. -/
theorem finish_transition_timer_off (md : MotionDraws) (s : ViewerState)
    (h1 : s.motionTimerActive = false) (h2 : s.motionDuration ≤ 0) :
    (finish_transition md s).motionTimerActive = false := by
  simp only [finish_transition, cleanup_transition_tiles,
    prepare_motion_parameters]
  split_ifs <;> simp_all <;> omega

/-- `_finish_transition` starts the motion timer when a transition with a
real incoming image completes, motion is enabled, and the stored duration
is positive. -/
theorem finish_transition_timer_on (md : MotionDraws) (s : ViewerState)
    (hact : s.transitionActive = true)
    (hin : s.incomingPixmap.isNull = false)
    (hen : s.motionEnabled = true) (hdur : 0 < s.motionDuration) :
    (finish_transition md s).motionTimerActive = true := by
  simp only [finish_transition, cleanup_transition_tiles,
    prepare_motion_parameters]
  split_ifs <;> simp_all

/-- Branch-level description of `set_image` on a decodable image with an
explicit duration: the stored motion duration, the preserved motion-enabled
flag, and how the motion timer and the incoming slot relate to whether a
transition was started. -/
theorem set_image_motion_spec (pix : Pixmap) (hpix : pix.isNull = false)
    (folderText dateText : String) (dur : ℚ) (transition : Option String)
    (d : Draws) (s : ViewerState) :
    (set_image pix folderText dateText (some dur) transition d
        s).motionDuration = max 0 (pyTrunc (dur * 1000)) ∧
    (set_image pix folderText dateText (some dur) transition d
        s).motionEnabled = s.motionEnabled ∧
    ((set_image pix folderText dateText (some dur) transition d
        s).transitionActive = false →
      (set_image pix folderText dateText (some dur) transition d
          s).motionTimerActive =
        (s.motionEnabled && decide (0 < max 0 (pyTrunc (dur * 1000))))) ∧
    ((set_image pix folderText dateText (some dur) transition d
        s).transitionActive = true →
      (set_image pix folderText dateText (some dur) transition d
          s).motionTimerActive = false ∧
      (set_image pix folderText dateText (some dur) transition d
          s).incomingPixmap = pix) ∧
    ((s.pixmapItem.pixmap.isNull || s.currentPixmap.isNull ||
        s.transitionActive) = true →
      (set_image pix folderText dateText (some dur) transition d
          s).transitionActive = false) := by
  have hapi := fun t => apply_pixmap_immediately_spec d.motion pix t
  have hst := fun t0 t => start_transition_frame d t0 t
  simp only [set_image, hpix, Bool.false_eq_true, if_false]
  split
  · exact ⟨(hapi _).2.2.2.2.2.1, (hapi _).2.2.2.2.2.2.1,
      fun _ => ((hapi _).2.2.2.2.2.2.2).trans (Bool.false_or _),
      fun habs => absurd ((hapi _).2.1.symm.trans habs) Bool.false_ne_true,
      fun _ => (hapi _).2.1⟩
  · split
    · exact ⟨(hapi _).2.2.2.2.2.1, (hapi _).2.2.2.2.2.2.1,
        fun _ => ((hapi _).2.2.2.2.2.2.2).trans (Bool.false_or _),
        fun habs => absurd ((hapi _).2.1.symm.trans habs) Bool.false_ne_true,
        fun _ => (hapi _).2.1⟩
    · split
      · split
        · exact ⟨(hapi _).2.2.2.2.2.1, (hapi _).2.2.2.2.2.2.1,
            fun _ => ((hapi _).2.2.2.2.2.2.2).trans (Bool.false_or _),
            fun habs =>
              absurd ((hapi _).2.1.symm.trans habs) Bool.false_ne_true,
            fun _ => (hapi _).2.1⟩
        · refine ⟨(hst _ _).2.2.1, (hst _ _).1,
            fun habs =>
              absurd (((hst _ _).2.2.2.2.1).symm.trans habs) (by decide),
            fun _ => ⟨(hst _ _).2.1, (hst _ _).2.2.2.1⟩, fun hor => ?_⟩
          exfalso
          simp_all
      · refine ⟨(hst _ _).2.2.1, (hst _ _).1,
          fun habs =>
            absurd (((hst _ _).2.2.2.2.1).symm.trans habs) (by decide),
          fun _ => ⟨(hst _ _).2.1, (hst _ _).2.2.2.1⟩, fun hor => ?_⟩
        exfalso
        simp_all

/-- C7: a `show()` call that provides a duration stores
max(0, int(duration times 1000)) milliseconds as the motion duration; when
that stored value is 0 the motion timer is never started for that image -
neither immediately nor when a started transition later finishes - and a
subsequent call with a positive stored duration (with motion enabled)
starts the motion timer again, immediately on the no-transition paths or
at transition completion otherwise. -/
theorem set_image_duration_motion (pix : Pixmap)
    (hpix : pix.isNull = false) (folderText dateText : String) (dur : ℚ)
    (transition : Option String) (d : Draws) (s : ViewerState) :
    (set_image pix folderText dateText (some dur) transition d
        s).motionDuration = max 0 (pyTrunc (dur * 1000)) ∧
    (max 0 (pyTrunc (dur * 1000)) = 0 →
      (set_image pix folderText dateText (some dur) transition d
          s).motionTimerActive = false ∧
      ∀ md, (finish_transition md
        (set_image pix folderText dateText (some dur) transition d
          s)).motionTimerActive = false) ∧
    (0 < pyTrunc (dur * 1000) → s.motionEnabled = true →
      ((s.pixmapItem.pixmap.isNull || s.currentPixmap.isNull ||
          s.transitionActive) = true →
        (set_image pix folderText dateText (some dur) transition d
            s).motionTimerActive = true) ∧
      ((set_image pix folderText dateText (some dur) transition d
          s).transitionActive = true →
        ∀ md, (finish_transition md
          (set_image pix folderText dateText (some dur) transition d
            s)).motionTimerActive = true)) := by
  obtain ⟨m1, m2, m3, m4, m5⟩ :=
    set_image_motion_spec pix hpix folderText dateText dur transition d s
  have htimer0 : max 0 (pyTrunc (dur * 1000)) = 0 →
      (set_image pix folderText dateText (some dur) transition d
        s).motionTimerActive = false := by
    intro hq
    cases hres : (set_image pix folderText dateText (some dur) transition d
        s).transitionActive
    · rw [m3 hres, hq]
      simp
    · exact (m4 hres).1
  refine ⟨m1, fun hq => ⟨htimer0 hq, fun md => ?_⟩,
    fun htr hen => ⟨fun hguard => ?_, fun hres md => ?_⟩⟩
  · exact finish_transition_timer_off md _ (htimer0 hq)
      (le_of_eq (m1.trans hq))
  · have hpos : (0 : ℤ) < max 0 (pyTrunc (dur * 1000)) :=
      lt_of_lt_of_le htr (le_max_right _ _)
    rw [m3 (m5 hguard), hen]
    simp [hpos]
  · refine finish_transition_timer_on md _ hres ?_ ?_ ?_
    · rw [(m4 hres).2]
      exact hpix
    · rw [m2]
      exact hen
    · rw [m1]
      exact lt_of_lt_of_le htr (le_max_right _ _)

/-- Witness for the duration/motion theorem: a concrete zero-duration call
stores 0 and leaves the motion timer stopped. -/
theorem set_image_duration_motion_witness :
    pixB.isNull = false ∧
    (set_image pixB "f" "g" (some 0) none d0 s0).motionDuration = 0 ∧
    (set_image pixB "f" "g" (some 0) none d0 s0).motionTimerActive
      = false := by
  have hzero : max 0 (pyTrunc ((0 : ℚ) * 1000)) = 0 := by
    norm_num [pyTrunc]
  refine ⟨rfl, ?_, ?_⟩
  · exact ((set_image_duration_motion pixB rfl "f" "g" 0 none d0 s0).1).trans
      hzero
  · exact ((set_image_duration_motion pixB rfl "f" "g" 0 none d0
      s0).2.1 hzero).1

/-- C8: restricting the available transitions to the zoom kind makes every
subsequent hintless (or unsupported-hinted) `show()` call that starts a
transition select zoom, for any number of consecutive calls (the available
list is preserved by the call), and passing null restores the full
seven-kind supported list. -/
theorem available_transitions_roundtrip (s : ViewerState) :
    (set_available_transitions (.listArg ["zoom"]) s).availableTransitions
        = ["zoom"] ∧
    (set_available_transitions .noneArg s).availableTransitions =
      SUPPORTED_TRANSITIONS ∧
    (∀ (pix : Pixmap) (folderText dateText : String)
        (duration : Option ℚ) (tr : Option String) (d : Draws)
        (s2 : ViewerState),
      s2.availableTransitions = ["zoom"] →
      (tr = none ∨ ∃ t, tr = some t ∧
        SUPPORTED_TRANSITIONS.contains (pyLower (pyStrip t)) = false) →
      pix.isNull = false → s2.pixmapItem.pixmap.isNull = false →
      s2.currentPixmap.isNull = false → s2.transitionActive = false →
      (set_image pix folderText dateText duration tr d
          s2).transitionActive = true ∧
      (set_image pix folderText dateText duration tr d
          s2).transitionType = some "zoom" ∧
      (set_image pix folderText dateText duration tr d
          s2).availableTransitions = ["zoom"]) := by
  refine ⟨?_, rfl, ?_⟩
  · simp only [set_available_transitions]
    decide
  · intro pix folderText dateText duration tr d s2 havail hhint hpix hpp
      hcp hact
    have hchoose : ∀ t : ViewerState, t.availableTransitions = ["zoom"] →
        choose_transition d.choiceIdx t = "zoom" :=
      fun t ht => choose_transition_singleton d.choiceIdx t ht
    have hmain : ∀ (s3 : ViewerState), s3.availableTransitions = ["zoom"] →
        s3.incomingPixmap = pix →
        (start_transition d "zoom" s3).transitionActive = true ∧
        (start_transition d "zoom" s3).transitionType = some "zoom" ∧
        (start_transition d "zoom" s3).availableTransitions = ["zoom"] :=
      fun s3 h3 _ =>
        ⟨(start_transition_frame d "zoom" s3).2.2.2.2.1,
         start_transition_type_supported d "zoom" (by decide) s3,
         ((start_transition_frame d "zoom" s3).2.2.2.2.2).trans h3⟩
    rcases hhint with rfl | ⟨t, rfl, hcont⟩
    · cases duration <;>
        · simp only [set_image, hpix, hpp, hcp, hact, havail,
            Bool.false_eq_true, if_false, Bool.or_self, Bool.or_false,
            List.isEmpty_cons]
          rw [hchoose _ rfl]
          exact hmain _ rfl rfl
    · cases duration <;>
        · simp only [set_image, hpix, hpp, hcp, hact, havail, hcont,
            Bool.false_eq_true, if_false, Bool.or_self, Bool.or_false,
            List.isEmpty_cons]
          rw [hchoose _ rfl]
          exact hmain _ rfl rfl

/-- Witness for the round-trip theorem: a singleton zoom list and one
hintless call on a steady state with that list. -/
theorem available_transitions_roundtrip_witness :
    (set_available_transitions (.listArg ["zoom"]) s0).availableTransitions
        = ["zoom"] ∧
    (set_image pixB "f" "g" none none d0
      { s0 with availableTransitions := ["zoom"] }).transitionType
        = some "zoom" := by
  refine ⟨(available_transitions_roundtrip s0).1, ?_⟩
  exact ((available_transitions_roundtrip s0).2.2 pixB "f" "g" none none
    d0 { s0 with availableTransitions := ["zoom"] } rfl (Or.inl rfl) rfl
    rfl rfl rfl).2.1
